import Mathlib

/-!
Verification of the scheduler / orchestrator core of the
Instagram-Reels-Scraper-Auto-Poster repository, shallowly embedded from
`src/app.py` (class `ReelsAutoPilot`), `src/auth.py` (`login`),
`src/helpers.py` (`load_all_config`), `src/config.py` (module defaults)
and `src/debug_app.py` (the debug orchestrator variant).

Modelling conventions:
* Time is `Int`, in seconds; `datetime.now()` becomes an explicit `now`
  parameter.  Task bodies are treated as instantaneous, so the `now` used
  for a task's due check is also the `now` used for its rescheduling.
* Task bodies, `random.randint(5, 20)` and the instagrapi login attempt are
  opaque to the scheduler; they enter the model as oracle parameters
  (`Bool` success flags, an `Int` jitter, an `Option Nat` session result).
* The in-process `config` module is a map `String -> Option PyValue`
  (attribute present or absent); the external sqlite store behind
  `helpers.get_all_config` is a list of string key/value rows.
* A Python exception escaping the code we model (`AttributeError` from
  `config.USERNAME` in `auth.login`, `ValueError` from `int(...)` in
  `ReelsAutoPilot.__init__`) is modelled by a `raised` flag on the state;
  once set, the remaining steps of the tick do not run, and the main loop
  terminates with `sys.exit(1)` (see `mainExit`).
-/

namespace ReelsPilot

/-- A Python value as it can appear as an attribute of the `config` module
in this program: strings, ints, lists of strings (`ACCOUNTS`,
`CHANNEL_LINKS`), plus the other shapes a caller could in principle store
(`None`, a float, an arbitrary object).  Python `bool` is an `int`
subclass and no code path of this repository stores a `bool` in config,
so there is no separate boolean case.  For a float only its truthiness
would matter to the modelled code, hence the `isZero` payload. -/
inductive PyValue where
  | pstr (s : String)
  | pint (n : Int)
  | pnone
  | pfloat (isZero : Bool)
  | plist (items : List String)
  | pobj
deriving DecidableEq, Repr

/-- The in-process `config` module: attribute name to value, `none` when
the attribute is absent (so that plain attribute access raises). -/
def Config : Type := String → Option PyValue

/-- The external key/value store (the `configs` table read by
`helpers.get_all_config`): rows of string key and string value. -/
def Store : Type := List (String × String)

/-- Python `setattr(config, k, v)`. -/
def setattrC (cfg : Config) (k : String) (v : PyValue) : Config :=
  fun k' => if k' = k then some v else cfg k'

/-- The whitespace characters Python's `str.strip()` removes, restricted
to the ASCII range (Python also strips other Unicode whitespace; no value
in this repository contains any). -/
def isPySpace (c : Char) : Bool :=
  c = ' ' || c = '\t' || c = '\n' || c = '\r' ||
  c = Char.ofNat 11 || c = Char.ofNat 12

/-- Python `s.strip()` on a string: drop leading and trailing whitespace. -/
def pystrip (s : String) : String :=
  ⟨(((s.data.dropWhile isPySpace).reverse).dropWhile isPySpace).reverse⟩

/-- Digits of a decimal literal folded to a number. -/
def digitsToNat (l : List Char) : Nat :=
  l.foldl (fun acc c => acc * 10 + (c.toNat - '0'.toNat)) 0

/-- Python `int(s)` on a string: strip whitespace, optional sign, decimal
digits; `none` models `ValueError`.  (Python additionally accepts
underscore group separators between digits; no value in this repository
uses them.) -/
def pyIntOfString (s : String) : Option Int :=
  let body := (pystrip s).data
  match body with
  | [] => none
  | c :: rest =>
    if c = '-' then
      if rest ≠ [] ∧ rest.all Char.isDigit then some (-(digitsToNat rest : Int))
      else none
    else if c = '+' then
      if rest ≠ [] ∧ rest.all Char.isDigit then some (digitsToNat rest : Int)
      else none
    else
      if body.all Char.isDigit then some (digitsToNat body : Int)
      else none

/-- Python `int(value)` on a config attribute value; `none` models the
`TypeError`/`ValueError` cases.  (For a float Python would truncate; no
config value of this repository is a float, so that case is mapped to the
error outcome together with the other non-int, non-str shapes.) -/
def pyIntCoerce : PyValue → Option Int
  | .pint n => some n
  | .pstr s => pyIntOfString s
  | _ => none

/-- Python truthiness `bool(v)` for the value shapes of this model
(`auth.login` tests `not config.USERNAME or not config.PASSWORD`). -/
def pyTruthy : PyValue → Bool
  | .pstr s => !s.isEmpty
  | .pint n => n ≠ 0
  | .pnone => false
  | .pfloat isZero => !isZero
  | .plist items => !items.isEmpty
  | .pobj => true

/-- The config keys `helpers.load_all_config` treats as comma-separated
lists. -/
def listKeys : List String := ["ACCOUNTS", "CHANNEL_LINKS"]

/-- The config keys `helpers.load_all_config` tries to convert to int. -/
def numericKeys : List String :=
  ["IS_REMOVE_FILES", "REMOVE_FILE_AFTER_MINS", "IS_ENABLED_REELS_SCRAPER",
   "IS_ENABLED_AUTO_POSTER", "IS_POST_TO_STORY", "FETCH_LIMIT",
   "POSTING_INTERVAL_IN_MIN", "SCRAPER_INTERVAL_IN_MIN",
   "LIKE_AND_VIEW_COUNTS_DISABLED", "DISABLE_COMMENTS",
   "IS_ENABLED_YOUTUBE_SCRAPING", "YOUTUBE_SCRAPING_INTERVAL_IN_MINS"]

/-- `[item.strip() for item in value.split(",") if item.strip()]`. -/
def splitCommaStrip (v : String) : List String :=
  ((v.splitOn ",").map pystrip).filter (fun s => !s.isEmpty)

/-- One iteration of the loop in `helpers.load_all_config`: set one config
attribute from one store row (list keys split, numeric keys int-converted
with string fallback, everything else stored as the raw string). -/
def loadOne (cfg : Config) (kv : String × String) : Config :=
  if kv.1 ∈ listKeys then
    setattrC cfg kv.1 (.plist (splitCommaStrip kv.2))
  else if kv.1 ∈ numericKeys then
    match pyIntOfString kv.2 with
    | some n => setattrC cfg kv.1 (.pint n)
    | none => setattrC cfg kv.1 (.pstr kv.2)
  else
    setattrC cfg kv.1 (.pstr kv.2)

/-- `helpers.load_all_config()`: fold every row of the external store into
the in-process config module (attributes not present in the store keep
their current value; rows overwrite). -/
def loadAllConfig (store : Store) (cfg : Config) : Config :=
  store.foldl loadOne cfg

/-- The `config` module as imported (`src/config.py` module globals that
the scheduler can read; the path constants `CURRENT_DIR`, `DB_PATH`,
`DOWNLOAD_DIR` depend on the process environment and are never read by
the scheduler, so they are left out of the map). -/
def moduleConfig : Config :=
  [("IS_REMOVE_FILES", PyValue.pint 1),
   ("REMOVE_FILE_AFTER_MINS", PyValue.pint 120),
   ("IS_ENABLED_REELS_SCRAPER", PyValue.pint 1),
   ("IS_ENABLED_AUTO_POSTER", PyValue.pint 1),
   ("IS_POST_TO_STORY", PyValue.pint 1),
   ("FETCH_LIMIT", PyValue.pint 5),
   ("POSTING_INTERVAL_IN_MIN", PyValue.pint 30),
   ("SCRAPER_INTERVAL_IN_MIN", PyValue.pint 720),
   ("ACCOUNTS", PyValue.plist ["creustel", "elouen_la_baleine", "victorhabchy"]),
   ("LIKE_AND_VIEW_COUNTS_DISABLED", PyValue.pint 0),
   ("DISABLE_COMMENTS", PyValue.pint 0),
   ("HASHTAGS", PyValue.pstr "#reels #shorts #likes #follow #Reels-AutoPilot"),
   ("IS_ENABLED_YOUTUBE_SCRAPING", PyValue.pint 1),
   ("YOUTUBE_SCRAPING_INTERVAL_IN_MINS", PyValue.pint 360),
   ("CHANNEL_LINKS",
    PyValue.plist ["https://www.youtube.com/@SuprOrdinary",
                   "https://www.youtube.com/@DrexLee"])
  ].foldl (fun c kv => setattrC c kv.1 kv.2) (fun _ => none)

/-- `getattr(config, key, 0)` as used by `ReelsAutoPilot._is_enabled`. -/
def getattr0 (cfg : Config) (key : String) : PyValue :=
  (cfg key).getD (.pint 0)

/-- `ReelsAutoPilot._is_enabled` (app.py lines 104-113): a string value is
enabled when its stripped form is `"1"`, an int value when it equals `1`,
anything else (including a missing attribute, defaulted to `0`) is
disabled. -/
def is_enabled (cfg : Config) (key : String) : Bool :=
  match getattr0 cfg key with
  | .pstr s => pystrip s = "1"
  | .pint n => n = 1
  | _ => false

/-- The scheduler's mutable state: the in-process config module (a
module-level global in Python, mutated by `load_all_config`), the
`ReelsAutoPilot` instance attributes that matter to scheduling, and the
exception flag described in the header.  `sleeps` records every
`time.sleep` the error handler performs, as observable evidence of the
cooldown. -/
structure AppState where
  cfg : Config
  api : Option Nat
  nextScraper : Int
  nextPoster : Int
  nextRemover : Int
  nextYoutube : Int
  scraperInterval : Int
  posterInterval : Int
  removerInterval : Int
  youtubeInterval : Int
  consecutiveErrors : Nat
  maxConsecutiveErrors : Nat
  sleeps : List Nat
  raised : Bool

/-- `auth.login()` (auth.py lines 152-166): reload the config from the
store, then return `None` when `USERNAME`/`PASSWORD` are falsy, otherwise
the result of the opaque authentication attempt (`attempt`).  The third
component is the exception flag: plain attribute access
`config.USERNAME` raises `AttributeError` when the attribute is absent. -/
def auth_login (store : Store) (cfg : Config) (attempt : Option Nat) :
    Config × Option Nat × Bool :=
  let cfg' := loadAllConfig store cfg
  match cfg' "USERNAME", cfg' "PASSWORD" with
  | some u, some p =>
    if pyTruthy u && pyTruthy p then (cfg', attempt, false)
    else (cfg', none, false)
  | _, _ => (cfg', none, true)

/-- `ReelsAutoPilot.initialize_instagram` (app.py lines 115-130): when the
scraper or the poster is enabled and no client is held, call
`auth.login()` and store its result; return `False` when it yields no
client, `True` otherwise (second component).  The name drops the verb's
`-ize` suffix purely for the Lean identifier. -/
def init_instagram (store : Store) (st : AppState) (attempt : Option Nat) :
    AppState × Bool :=
  if is_enabled st.cfg "IS_ENABLED_REELS_SCRAPER" ||
     is_enabled st.cfg "IS_ENABLED_AUTO_POSTER" then
    if st.api.isNone then
      match auth_login store st.cfg attempt with
      | (cfg', _, true) => ({ st with cfg := cfg', api := none, raised := true }, false)
      | (cfg', none, false) => ({ st with cfg := cfg', api := none }, false)
      | (cfg', some s, false) => ({ st with cfg := cfg', api := some s }, true)
    else (st, true)
  else (st, true)

/-- `ReelsAutoPilot.handle_error` (app.py lines 219-230): increment the
consecutive-error counter; once it reaches the ceiling, drop the client,
call `initialize_instagram` (its boolean result is ignored), reset the
counter to 0 and `time.sleep(60)`.  When the login raises, Python has
already persisted the incremented counter and the dropped client, and the
reset/sleep lines never run. -/
def handle_error (store : Store) (st : AppState) (attempt : Option Nat) :
    AppState :=
  let c := st.consecutiveErrors + 1
  if st.maxConsecutiveErrors ≤ c then
    let st1 := { st with consecutiveErrors := c, api := none }
    let st2 := (init_instagram store st1 attempt).1
    if st2.raised then st2
    else { st2 with consecutiveErrors := 0, sleeps := st2.sleeps ++ [60] }
  else { st with consecutiveErrors := c }

/-- `ReelsAutoPilot.run_reels_scraper` (app.py lines 132-155): skip
(returning with nothing changed) when no client is held; on a successful
body run, schedule the next run `scraper_interval` minutes after the
post-body `datetime.now()` and zero the error counter; when the body
raises, fall to `handle_error` without rescheduling. -/
def run_reels_scraper (store : Store) (st : AppState) (now : Int)
    (bodyOk : Bool) (attempt : Option Nat) : AppState :=
  if st.api.isNone then st
  else if bodyOk then
    { st with nextScraper := now + st.scraperInterval * 60, consecutiveErrors := 0 }
  else handle_error store st attempt

/-- `ReelsAutoPilot.run_poster` (app.py lines 157-179): as the scraper,
except the next run additionally gets `random.randint(5, 20)` seconds of
jitter (the oracle value `jitter`). -/
def run_poster (store : Store) (st : AppState) (now : Int)
    (bodyOk : Bool) (jitter : Int) (attempt : Option Nat) : AppState :=
  if st.api.isNone then st
  else if bodyOk then
    { st with nextPoster := now + st.posterInterval * 60 + jitter,
              consecutiveErrors := 0 }
  else handle_error store st attempt

/-- `ReelsAutoPilot.run_remover` (app.py lines 181-198): no client check,
reschedule on success; a failing body is only logged — no `handle_error`,
no counter change, no reschedule. -/
def run_remover (st : AppState) (now : Int) (bodyOk : Bool) : AppState :=
  if bodyOk then { st with nextRemover := now + st.removerInterval * 60 }
  else st

/-- `ReelsAutoPilot.run_youtube_scraper` (app.py lines 200-217): same
shape as `run_remover`. -/
def run_youtube_scraper (st : AppState) (now : Int) (bodyOk : Bool) : AppState :=
  if bodyOk then { st with nextYoutube := now + st.youtubeInterval * 60 }
  else st

/-- The four scheduled tasks, in the spec's names: Scrape, Post, Cleanup
(file remover), SecondaryAcquire (YouTube scraper). -/
inductive TaskName where
  | scrape
  | post
  | cleanup
  | secondary
deriving DecidableEq, Repr

/-- The oracle inputs one tick can consume: the four task-body outcomes
(`true` = the body returned, `false` = it raised), the poster's jitter
draw, and a login attempt result for each of the two places a tick can
reach `auth.login` (a scraper failure and a poster failure crossing the
ceiling). -/
structure TickEnv where
  scrapeOk : Bool
  postOk : Bool
  removeOk : Bool
  youtubeOk : Bool
  jitter : Int
  loginS : Option Nat
  loginP : Option Nat

/-- The scraper block of the main loop (app.py lines 302-307), carrying
the state and the list of tasks invoked so far.  The leading check of the
exception flag models the fact that an exception escaping an earlier
block skips the rest of the tick (it is vacuous for the first block,
since the loop only runs while no exception has escaped). -/
def stepScrape (store : Store) (now : Int) (env : TickEnv)
    (p : AppState × List TaskName) : AppState × List TaskName :=
  if p.1.raised then p
  else if is_enabled p.1.cfg "IS_ENABLED_REELS_SCRAPER" && p.1.nextScraper ≤ now then
    (run_reels_scraper store p.1 now env.scrapeOk env.loginS, p.2 ++ [.scrape])
  else p

/-- The poster block of the main loop (app.py lines 309-314). -/
def stepPost (store : Store) (now : Int) (env : TickEnv)
    (p : AppState × List TaskName) : AppState × List TaskName :=
  if p.1.raised then p
  else if is_enabled p.1.cfg "IS_ENABLED_AUTO_POSTER" && p.1.nextPoster ≤ now then
    (run_poster store p.1 now env.postOk env.jitter env.loginP, p.2 ++ [.post])
  else p

/-- The remover block of the main loop (app.py lines 316-321). -/
def stepCleanup (now : Int) (env : TickEnv)
    (p : AppState × List TaskName) : AppState × List TaskName :=
  if p.1.raised then p
  else if is_enabled p.1.cfg "IS_REMOVE_FILES" && p.1.nextRemover ≤ now then
    (run_remover p.1 now env.removeOk, p.2 ++ [.cleanup])
  else p

/-- The YouTube block of the main loop (app.py lines 323-328). -/
def stepSecondary (now : Int) (env : TickEnv)
    (p : AppState × List TaskName) : AppState × List TaskName :=
  if p.1.raised then p
  else if is_enabled p.1.cfg "IS_ENABLED_YOUTUBE_SCRAPING" && p.1.nextYoutube ≤ now then
    (run_youtube_scraper p.1 now env.youtubeOk, p.2 ++ [.secondary])
  else p

/-- One iteration of the main loop's task-dispatch section (app.py lines
296-328): read `now` once, then for each task in the fixed textual order
scraper, poster, remover, youtube run it when its enabled flag (read from
the in-process config at that moment) and its due time allow.  Returns
the state plus the list of tasks whose run method was invoked, in
invocation order. -/
def tick (store : Store) (st : AppState) (now : Int) (env : TickEnv) :
    AppState × List TaskName :=
  stepSecondary now env (stepCleanup now env
    (stepPost store now env (stepScrape store now env (st, []))))

/-- `ReelsAutoPilot.__init__` (app.py lines 27-73): load the config from
the store, fix the four intervals (short constants in dev mode, otherwise
`int(getattr(config, KEY, default))` — raising, hence `raised`, when the
loaded value is a non-numeric string), and stagger the initial due times
at `now0`, `now0+1min`, `now0+2min`, `now0+3min`. -/
def initApp (store : Store) (devMode : Bool) (now0 : Int) : AppState :=
  let cfg := loadAllConfig store moduleConfig
  let base : AppState :=
    { cfg := cfg, api := none,
      nextScraper := now0, nextPoster := now0 + 60,
      nextRemover := now0 + 120, nextYoutube := now0 + 180,
      scraperInterval := 0, posterInterval := 0,
      removerInterval := 0, youtubeInterval := 0,
      consecutiveErrors := 0, maxConsecutiveErrors := 5,
      sleeps := [], raised := false }
  if devMode then
    { base with scraperInterval := 5, posterInterval := 2,
                removerInterval := 10, youtubeInterval := 15 }
  else
    match pyIntCoerce ((cfg "SCRAPER_INTERVAL_IN_MIN").getD (.pint 720)),
          pyIntCoerce ((cfg "POSTING_INTERVAL_IN_MIN").getD (.pint 30)),
          pyIntCoerce ((cfg "REMOVE_FILE_AFTER_MINS").getD (.pint 120)),
          pyIntCoerce ((cfg "YOUTUBE_SCRAPING_INTERVAL_IN_MINS").getD (.pint 360)) with
    | some a, some b, some c, some d =>
      { base with scraperInterval := a, posterInterval := b,
                  removerInterval := c, youtubeInterval := d }
    | _, _, _, _ => { base with raised := true }

/-- The main loop (app.py lines 294-351) over a finite schedule of ticks,
each supplying its `datetime.now()` and its oracle inputs; the loop ends
either because the schedule is exhausted (a `KeyboardInterrupt`, i.e.
graceful shutdown) or because an exception escaped a tick (the outer
handler's own `handle_error` then reaches `auth.login` under the same
store and raises again, ending the loop). -/
def runLoop (store : Store) (st : AppState) (ticks : List (Int × TickEnv)) :
    AppState :=
  ticks.foldl (fun s t => if s.raised then s else (tick store s t.1 t.2).1) st

/-- `main()` plus `ReelsAutoPilot.run` (app.py lines 276-370) as an exit
code: an exception escaping the constructor or the loop is caught in
`main` and turned into `sys.exit(1)`; a startup `initialize_instagram`
returning `False` makes `run()` return, so `main` completes and the
process exits 0; a graceful shutdown also exits 0. -/
def mainExit (store : Store) (devMode : Bool) (now0 : Int)
    (startupLogin : Option Nat) (ticks : List (Int × TickEnv)) : Int :=
  let st := initApp store devMode now0
  if st.raised then 1
  else
    let p := init_instagram store st startupLogin
    if p.1.raised then 1
    else if !p.2 then 0
    else if (runLoop store p.1 ticks).raised then 1
    else 0

/-- `DebugReelsAutoPilot.run_reels_scraper` (debug_app.py lines 142-163):
the debug orchestrator variant reads `config.SCRAPER_INTERVAL_IN_MIN`
at run time when rescheduling (`int(config.SCRAPER_INTERVAL_IN_MIN) * 60`
seconds); an exception anywhere in the body (including a missing or
non-numeric config value) is caught and leaves the state unchanged. -/
def debug_run_reels_scraper (st : AppState) (now : Int) (bodyOk : Bool) :
    AppState :=
  if st.api.isNone then st
  else if bodyOk then
    match st.cfg "SCRAPER_INTERVAL_IN_MIN" with
    | some v =>
      match pyIntCoerce v with
      | some n => { st with nextScraper := now + n * 60 }
      | none => st
    | none => st
  else st

/-- A production-mode state as `__init__` builds it from an empty store
(used to instantiate hypotheses at concrete inputs). -/
def sampleState : AppState :=
  { cfg := moduleConfig, api := none,
    nextScraper := 0, nextPoster := 60, nextRemover := 120, nextYoutube := 180,
    scraperInterval := 720, posterInterval := 30,
    removerInterval := 120, youtubeInterval := 360,
    consecutiveErrors := 0, maxConsecutiveErrors := 5,
    sleeps := [], raised := false }

/-- A store holding working credentials (used to instantiate the
circuit-breaker claims at concrete inputs). -/
def credStore : Store := [("USERNAME", "user"), ("PASSWORD", "pass")]

/-- A state holding a session, one failure short of the default ceiling. -/
def nearCeilingState : AppState :=
  { sampleState with api := some 7, consecutiveErrors := 4 }

/-- A state holding a session whose scraper run is overdue (its due time
500 is in the past at `now = 1000`). -/
def dueState : AppState :=
  { sampleState with api := some 3, nextScraper := 500 }

/-- The store at process start for the C5 scenario: scraper interval 720
minutes, working credentials. -/
def c5storeOld : Store :=
  [("SCRAPER_INTERVAL_IN_MIN", "720"), ("USERNAME", "user"), ("PASSWORD", "pass")]

/-- The same store after an operator changes the scraper interval to 30
minutes. -/
def c5storeNew : Store :=
  [("SCRAPER_INTERVAL_IN_MIN", "30"), ("USERNAME", "user"), ("PASSWORD", "pass")]

/-- The state after startup against `c5storeOld` (config loaded, interval
720 captured, session acquired). -/
def c5start : AppState :=
  (init_instagram c5storeOld (initApp c5storeOld false 0) (some 1)).1

/-- One failing scraper run against the changed store. -/
def c5fail (st : AppState) : AppState :=
  run_reels_scraper c5storeNew st 100 false (some 1)

/-- Five consecutive failing scraper runs: the fifth crosses the ceiling,
so the circuit breaker reloads the config (picking up interval 30) and
reacquires the session. -/
def c5reloaded : AppState := c5fail (c5fail (c5fail (c5fail (c5fail c5start))))

/-- A session-holding state whose cached interval is 720 while the config
module meanwhile says 30. -/
def c5memState : AppState :=
  { sampleState with api := some 1,
                     cfg := setattrC moduleConfig "SCRAPER_INTERVAL_IN_MIN" (.pint 30) }

/-- The store at startup for the C6 scenario: only the file remover
enabled. -/
def c6storeOld : Store :=
  [("IS_ENABLED_REELS_SCRAPER", "0"), ("IS_ENABLED_AUTO_POSTER", "0"),
   ("IS_ENABLED_YOUTUBE_SCRAPING", "0"), ("IS_REMOVE_FILES", "1")]

/-- The same store after an operator disables the file remover. -/
def c6storeNew : Store :=
  [("IS_ENABLED_REELS_SCRAPER", "0"), ("IS_ENABLED_AUTO_POSTER", "0"),
   ("IS_ENABLED_YOUTUBE_SCRAPING", "0"), ("IS_REMOVE_FILES", "0")]

/-- A tick environment where every body succeeds. -/
def allOkEnv : TickEnv :=
  { scrapeOk := true, postOk := true, removeOk := true, youtubeOk := true,
    jitter := 10, loginS := none, loginP := none }

/-- The fixed priority order of the spec: Scrape, Post, Cleanup,
SecondaryAcquire (the textual order of the four dispatch blocks in the
main loop). -/
def priorityOrder : List TaskName :=
  [TaskName.scrape, TaskName.post, TaskName.cleanup, TaskName.secondary]

/-- The dispatch condition of each task against a given state and time:
its enabled flag in the in-process config, and its due time reached. -/
def dueAndEnabled (st : AppState) (now : Int) : TaskName → Bool
  | .scrape => is_enabled st.cfg "IS_ENABLED_REELS_SCRAPER" && st.nextScraper ≤ now
  | .post => is_enabled st.cfg "IS_ENABLED_AUTO_POSTER" && st.nextPoster ≤ now
  | .cleanup => is_enabled st.cfg "IS_REMOVE_FILES" && st.nextRemover ≤ now
  | .secondary =>
      is_enabled st.cfg "IS_ENABLED_YOUTUBE_SCRAPING" && st.nextYoutube ≤ now

/-- A config holding working credentials alongside the module defaults
(so that a login from it neither raises nor is rejected). -/
def c8cfg : Config :=
  setattrC (setattrC moduleConfig "USERNAME" (.pstr "user"))
    "PASSWORD" (.pstr "pass")

/-- A session-holding state with all four tasks enabled and overdue. -/
def c8state : AppState :=
  { sampleState with cfg := c8cfg, api := some 1 }

/-- A store for the C7 scenario: the scraper (a session-dependent task)
is enabled, but the stored username is the empty string, so `auth.login`
reports no client (its credential check fails before any attempt). -/
def c7store : Store :=
  [("IS_ENABLED_REELS_SCRAPER", "1"), ("USERNAME", ""), ("PASSWORD", "pass")]

/-- A store whose scraper interval is a non-numeric string, making
`int(getattr(config, "SCRAPER_INTERVAL_IN_MIN", 720))` raise in
`__init__`. -/
def c7badStore : Store := [("SCRAPER_INTERVAL_IN_MIN", "oops")]

/-- Both session-dependent run methods return immediately, with the state
untouched, when no client is held (`if not self.api: return`). -/
lemma skip_without_session (store : Store) (st : AppState) (now : Int)
    (bodyOk : Bool) (jitter : Int) (attempt : Option Nat) (h : st.api = none) :
    run_reels_scraper store st now bodyOk attempt = st ∧
    run_poster store st now bodyOk jitter attempt = st := by
  constructor <;> simp [run_reels_scraper, run_poster, h]

/-- `handle_error` never touches the four due times nor the four interval
attributes. -/
lemma handle_error_frame (store : Store) (st : AppState) (attempt : Option Nat) :
    (handle_error store st attempt).nextScraper = st.nextScraper ∧
    (handle_error store st attempt).nextPoster = st.nextPoster ∧
    (handle_error store st attempt).nextRemover = st.nextRemover ∧
    (handle_error store st attempt).nextYoutube = st.nextYoutube ∧
    (handle_error store st attempt).scraperInterval = st.scraperInterval ∧
    (handle_error store st attempt).posterInterval = st.posterInterval ∧
    (handle_error store st attempt).removerInterval = st.removerInterval ∧
    (handle_error store st attempt).youtubeInterval = st.youtubeInterval := by
  refine ⟨?_, ?_, ?_, ?_, ?_, ?_, ?_, ?_⟩ <;>
    (simp only [handle_error, init_instagram]
     repeat' split
     all_goals rfl)

end ReelsPilot

namespace ReelsPilot

/-- Claim C3: a session-dependent (requiresSession) task that runs while
no valid session exists skips execution and returns with the whole state
— in particular its next-due time and the consecutive-failure counter —
unchanged, so the skip neither consumes error budget nor reschedules. -/
theorem claim3_skip_no_session (store : Store) (st : AppState) (now : Int)
    (bodyOk : Bool) (jitter : Int) (attempt : Option Nat)
    (h : st.api = none) :
    run_reels_scraper store st now bodyOk attempt = st ∧
    run_poster store st now bodyOk jitter attempt = st :=
  skip_without_session store st now bodyOk jitter attempt h

/-- Closed instance of C3 at a concrete sessionless state. -/
theorem claim3_skip_no_session_witness :
    run_reels_scraper [] sampleState 1000 true none = sampleState ∧
    run_poster [] sampleState 1000 true 10 none = sampleState :=
  claim3_skip_no_session [] sampleState 1000 true 10 none rfl

/-- Claim C9: `_is_enabled` answers `true` exactly for a string value
whose whitespace-stripped form is `"1"` or an int value equal to `1`;
every other shape is disabled, and a missing attribute (defaulted to the
int `0` by `getattr`) is disabled. -/
theorem claim9_enabled_iff (cfg : Config) (key : String) :
    (is_enabled cfg key = true ↔
      (∃ s, cfg key = some (.pstr s) ∧ pystrip s = "1") ∨
        cfg key = some (.pint 1)) ∧
    (cfg key = none → is_enabled cfg key = false) := by
  constructor
  · cases h : cfg key with
    | none => simp [is_enabled, getattr0, h]
    | some v => cases v <;> simp [is_enabled, getattr0, h]
  · intro h
    simp [is_enabled, getattr0, h]

/-- Closed instances of C9: the default int `1` is enabled, a missing key
is disabled. -/
theorem claim9_enabled_iff_witness :
    is_enabled moduleConfig "IS_ENABLED_REELS_SCRAPER" = true ∧
    is_enabled moduleConfig "NO_SUCH_KEY" = false :=
  ⟨(claim9_enabled_iff moduleConfig "IS_ENABLED_REELS_SCRAPER").1.mpr
      (Or.inr (by decide)),
   (claim9_enabled_iff moduleConfig "NO_SUCH_KEY").2 (by decide)⟩

/-- Claim C4: a failed run of a session-dependent task (Scrape, Post)
increments the consecutive-failure counter by exactly one (below the
ceiling, where the circuit breaker of C2 does not fire), any successful
session-dependent run resets it to zero, and runs of the non-session
tasks (Cleanup, SecondaryAcquire) never change it, whether their bodies
succeed or fail. -/
theorem claim4_budget_accounting (store : Store) (st : AppState) (now : Int)
    (s : Nat) (bodyOk : Bool) (jitter : Int) (attempt : Option Nat)
    (hapi : st.api = some s)
    (hbelow : st.consecutiveErrors + 1 < st.maxConsecutiveErrors) :
    (run_reels_scraper store st now false attempt).consecutiveErrors =
      st.consecutiveErrors + 1 ∧
    (run_poster store st now false jitter attempt).consecutiveErrors =
      st.consecutiveErrors + 1 ∧
    (run_reels_scraper store st now true attempt).consecutiveErrors = 0 ∧
    (run_poster store st now true jitter attempt).consecutiveErrors = 0 ∧
    (run_remover st now bodyOk).consecutiveErrors = st.consecutiveErrors ∧
    (run_youtube_scraper st now bodyOk).consecutiveErrors = st.consecutiveErrors := by
  have hno : ¬ st.maxConsecutiveErrors ≤ st.consecutiveErrors + 1 := by omega
  refine ⟨?_, ?_, ?_, ?_, ?_, ?_⟩
  · simp [run_reels_scraper, hapi, handle_error, hno]
  · simp [run_poster, hapi, handle_error, hno]
  · simp [run_reels_scraper, hapi]
  · simp [run_poster, hapi]
  · unfold run_remover; split <;> rfl
  · unfold run_youtube_scraper; split <;> rfl

/-- Closed instance of C4 at a concrete state holding a session with two
prior consecutive failures. -/
theorem claim4_budget_accounting_witness :
    (run_reels_scraper [] { sampleState with api := some 1, consecutiveErrors := 2 }
        300 false none).consecutiveErrors = 3 ∧
    (run_poster [] { sampleState with api := some 1, consecutiveErrors := 2 }
        300 false 7 none).consecutiveErrors = 3 ∧
    (run_reels_scraper [] { sampleState with api := some 1, consecutiveErrors := 2 }
        300 true none).consecutiveErrors = 0 ∧
    (run_poster [] { sampleState with api := some 1, consecutiveErrors := 2 }
        300 true 7 none).consecutiveErrors = 0 ∧
    (run_remover { sampleState with api := some 1, consecutiveErrors := 2 }
        300 false).consecutiveErrors = 2 ∧
    (run_youtube_scraper { sampleState with api := some 1, consecutiveErrors := 2 }
        300 false).consecutiveErrors = 2 :=
  claim4_budget_accounting [] _ 300 1 false 7 none rfl (by decide)

/-- Claim C2: when the consecutive-failure counter reaches the ceiling,
`handle_error` runs exactly one circuit-breaker cycle before anything
else executes: the session is dropped and reacquisition attempted (the
held client becomes whatever the fresh `auth.login` produced), the
counter is reset to 0, and exactly one fixed cooldown sleep of 60 seconds
is performed; the due times are untouched, so the next tick is evaluated
on the ordinary schedule. -/
theorem claim2_circuit_breaker (store : Store) (st : AppState)
    (attempt : Option Nat) (cfg' : Config) (res : Option Nat)
    (hraised : st.raised = false)
    (hceil : st.maxConsecutiveErrors ≤ st.consecutiveErrors + 1)
    (henabled : (is_enabled st.cfg "IS_ENABLED_REELS_SCRAPER" ||
                 is_enabled st.cfg "IS_ENABLED_AUTO_POSTER") = true)
    (hauth : auth_login store st.cfg attempt = (cfg', res, false)) :
    (handle_error store st attempt).consecutiveErrors = 0 ∧
    (handle_error store st attempt).api = res ∧
    (handle_error store st attempt).sleeps = st.sleeps ++ [60] ∧
    (handle_error store st attempt).raised = false ∧
    (handle_error store st attempt).nextScraper = st.nextScraper ∧
    (handle_error store st attempt).nextPoster = st.nextPoster ∧
    (handle_error store st attempt).nextRemover = st.nextRemover ∧
    (handle_error store st attempt).nextYoutube = st.nextYoutube := by
  cases res with
  | none =>
    simp [handle_error, init_instagram, hceil, henabled, hauth, hraised]
  | some s =>
    simp [handle_error, init_instagram, hceil, henabled, hauth, hraised]

/-- Closed instance of C2: the fifth consecutive failure triggers one
invalidate-reacquire-reset-cooldown cycle. -/
theorem claim2_circuit_breaker_witness :
    (handle_error credStore nearCeilingState (some 9)).consecutiveErrors = 0 ∧
    (handle_error credStore nearCeilingState (some 9)).api = some 9 ∧
    (handle_error credStore nearCeilingState (some 9)).sleeps = [60] ∧
    (handle_error credStore nearCeilingState (some 9)).raised = false :=
  have h := claim2_circuit_breaker credStore nearCeilingState (some 9)
      (loadAllConfig credStore moduleConfig) (some 9) rfl (by decide) (by decide) rfl
  ⟨h.1, h.2.1, h.2.2.1, h.2.2.2.1⟩

/-- Claim C10: when the counter crosses the ceiling and the
budget-triggered reacquisition itself fails (`auth.login` returns no
client), `handle_error` still resets the counter to 0 and still performs
the 60-second cooldown sleep, leaving the session absent, and the process
does not terminate; on later ticks the session-dependent run methods,
when due, skip and return the state unchanged (no rescheduling, no budget
change) until a reacquisition succeeds. -/
theorem claim10_failed_reacquisition (store : Store) (st : AppState)
    (attempt : Option Nat) (cfg' : Config)
    (hraised : st.raised = false)
    (hceil : st.maxConsecutiveErrors ≤ st.consecutiveErrors + 1)
    (henabled : (is_enabled st.cfg "IS_ENABLED_REELS_SCRAPER" ||
                 is_enabled st.cfg "IS_ENABLED_AUTO_POSTER") = true)
    (hauth : auth_login store st.cfg attempt = (cfg', none, false)) :
    (handle_error store st attempt).api = none ∧
    (handle_error store st attempt).consecutiveErrors = 0 ∧
    (handle_error store st attempt).sleeps = st.sleeps ++ [60] ∧
    (handle_error store st attempt).raised = false ∧
    (∀ (store2 : Store) (now : Int) (bodyOk : Bool) (jitter : Int)
        (attempt2 : Option Nat),
      run_reels_scraper store2 (handle_error store st attempt) now bodyOk attempt2 =
        handle_error store st attempt ∧
      run_poster store2 (handle_error store st attempt) now bodyOk jitter attempt2 =
        handle_error store st attempt) := by
  have hmain : (handle_error store st attempt).api = none ∧
      (handle_error store st attempt).consecutiveErrors = 0 ∧
      (handle_error store st attempt).sleeps = st.sleeps ++ [60] ∧
      (handle_error store st attempt).raised = false := by
    simp [handle_error, init_instagram, hceil, henabled, hauth, hraised]
  refine ⟨hmain.1, hmain.2.1, hmain.2.2.1, hmain.2.2.2, ?_⟩
  intro store2 now bodyOk jitter attempt2
  exact skip_without_session store2 _ now bodyOk jitter attempt2 hmain.1

/-- Closed instance of C10: ceiling crossed, reacquisition yields no
client; counter still resets, cooldown still sleeps, a later due scraper
run skips without rescheduling. -/
theorem claim10_failed_reacquisition_witness :
    (handle_error credStore nearCeilingState none).api = none ∧
    (handle_error credStore nearCeilingState none).consecutiveErrors = 0 ∧
    (handle_error credStore nearCeilingState none).sleeps = [60] ∧
    (handle_error credStore nearCeilingState none).raised = false ∧
    run_reels_scraper credStore (handle_error credStore nearCeilingState none)
      5000 true none = handle_error credStore nearCeilingState none :=
  have h := claim10_failed_reacquisition credStore nearCeilingState none
      (loadAllConfig credStore moduleConfig) rfl (by decide) (by decide) rfl
  ⟨h.1, h.2.1, h.2.2.1, h.2.2.2.1,
   (h.2.2.2.2 credStore 5000 true 10 none).1⟩

/-- Counterexample to claim C1: a scraper run that completes by raising a
failure does NOT get `nextDueAt` recomputed to `now + interval`; the old
due time (500) is kept, which is strictly less than `now + interval`
(1000 + 720*60), so the failed task is due again on the very next tick
rather than a full interval later. -/
theorem claim1_counterexample :
    (run_reels_scraper [] dueState 1000 false none).nextScraper = 500 ∧
    (500 : Int) ≠ 1000 + 720 * 60 := by decide

/-- Claim C1 as amended: only a task run whose body succeeds gets
`nextDueAt` recomputed to `now + interval` (with the Post task adding its
5-20 second jitter, so its next due time lands in
`[now + interval + 5, now + interval + 20]`); a run whose body raises
leaves `nextDueAt` unchanged, so a failed task is retried from its old
due time (typically the next tick) rather than a full interval later. -/
theorem claim1_amended_reschedule (store : Store) (st : AppState) (now : Int)
    (jitter : Int) (attempt : Option Nat) (s : Nat)
    (hapi : st.api = some s) (hj5 : 5 ≤ jitter) (hj20 : jitter ≤ 20) :
    (run_reels_scraper store st now true attempt).nextScraper =
      now + st.scraperInterval * 60 ∧
    (run_poster store st now true jitter attempt).nextPoster =
      now + st.posterInterval * 60 + jitter ∧
    now + st.posterInterval * 60 + 5 ≤
      (run_poster store st now true jitter attempt).nextPoster ∧
    (run_poster store st now true jitter attempt).nextPoster ≤
      now + st.posterInterval * 60 + 20 ∧
    (run_remover st now true).nextRemover = now + st.removerInterval * 60 ∧
    (run_youtube_scraper st now true).nextYoutube =
      now + st.youtubeInterval * 60 ∧
    (run_reels_scraper store st now false attempt).nextScraper =
      st.nextScraper ∧
    (run_poster store st now false jitter attempt).nextPoster =
      st.nextPoster := by
  refine ⟨?_, ?_, ?_, ?_, ?_, ?_, ?_, ?_⟩
  · simp [run_reels_scraper, hapi]
  · simp [run_poster, hapi]
  · simp [run_poster, hapi]; omega
  · simp [run_poster, hapi]; omega
  · simp [run_remover]
  · simp [run_youtube_scraper]
  · simp [run_reels_scraper, hapi]
    exact (handle_error_frame store st attempt).1
  · simp [run_poster, hapi]
    exact (handle_error_frame store st attempt).2.1

/-- Closed instance of the amended C1 at a concrete session-holding state
and the jitter draw 12. -/
theorem claim1_amended_reschedule_witness :
    (run_reels_scraper [] dueState 1000 true none).nextScraper =
      1000 + 720 * 60 ∧
    (run_poster [] dueState 1000 true 12 none).nextPoster =
      1000 + 30 * 60 + 12 ∧
    (run_reels_scraper [] dueState 1000 false none).nextScraper = 500 :=
  have h := claim1_amended_reschedule [] dueState 1000 12 none 3 rfl
      (by decide) (by decide)
  ⟨h.1, h.2.1, h.2.2.2.2.2.2.1⟩

/-- Counterexample to claim C5: after the circuit breaker has reloaded
the in-memory config (which now says `SCRAPER_INTERVAL_IN_MIN = 30`), a
successful scraper run at `now = 10000` still schedules the next run with
the interval captured at startup (720 minutes), not the new value — the
interval is fixed at `__init__` time, not read at task-run time. -/
theorem claim5_counterexample :
    c5reloaded.cfg "SCRAPER_INTERVAL_IN_MIN" = some (.pint 30) ∧
    (run_reels_scraper c5storeNew c5reloaded 10000 true none).nextScraper =
      10000 + 720 * 60 ∧
    (10000 : Int) + 720 * 60 ≠ 10000 + 30 * 60 := by decide

/-- Claim C5 as amended: in the main orchestrator (`app.py`) each task's
interval is read from config once in `__init__` and cached on the
instance; every run computes the next due time from that cached value,
unaffected by the config's current contents (replacing the config
attribute changes nothing).  Only the debug variant
(`debug_app.py`) reads `config.SCRAPER_INTERVAL_IN_MIN` at task-run
time. -/
theorem claim5_amended_interval_cached (store : Store) (st : AppState)
    (now : Int) (attempt : Option Nat) (s : Nat) (m : Int) (cfg2 : Config)
    (hapi : st.api = some s)
    (hcfg : st.cfg "SCRAPER_INTERVAL_IN_MIN" = some (.pint m)) :
    (run_reels_scraper store st now true attempt).nextScraper =
      now + st.scraperInterval * 60 ∧
    (run_reels_scraper store { st with cfg := cfg2 } now true attempt).nextScraper =
      now + st.scraperInterval * 60 ∧
    (debug_run_reels_scraper st now true).nextScraper = now + m * 60 := by
  refine ⟨?_, ?_, ?_⟩
  · simp [run_reels_scraper, hapi]
  · simp [run_reels_scraper, hapi]
  · simp [debug_run_reels_scraper, hapi, hcfg, pyIntCoerce]

/-- Closed instance of the amended C5: the cached interval is 720 while
the config module meanwhile says 30; the main variant schedules with 720,
the debug variant with 30. -/
theorem claim5_amended_interval_cached_witness :
    (run_reels_scraper [] c5memState 1000 true none).nextScraper =
      1000 + 720 * 60 ∧
    (debug_run_reels_scraper c5memState 1000 true).nextScraper =
      1000 + 30 * 60 :=
  have h := claim5_amended_interval_cached [] c5memState
    1000 none 1 30 moduleConfig rfl (by decide)
  ⟨h.1, h.2.2⟩

/-- Counterexample to claim C6: the external store is changed to disable
the Cleanup task (`IS_REMOVE_FILES = "0"`), yet the next tick still
executes Cleanup, because the loop re-reads only the in-process config
object (loaded at startup), never the external store. -/
theorem claim6_counterexample :
    is_enabled (loadAllConfig c6storeNew moduleConfig) "IS_REMOVE_FILES" = false ∧
    (tick c6storeNew (initApp c6storeOld false 0) 1000 allOkEnv).2 =
      [TaskName.cleanup] := by decide

/-- Success-path frame for the scraper run method: with a succeeding (or
skipped) body it can only touch its own due time and the counter. -/
lemma run_scr_ok_frame (store : Store) (st : AppState) (now : Int)
    (attempt : Option Nat) :
    (run_reels_scraper store st now true attempt).cfg = st.cfg ∧
    (run_reels_scraper store st now true attempt).raised = st.raised ∧
    (run_reels_scraper store st now true attempt).nextPoster = st.nextPoster ∧
    (run_reels_scraper store st now true attempt).nextRemover = st.nextRemover ∧
    (run_reels_scraper store st now true attempt).nextYoutube = st.nextYoutube := by
  unfold run_reels_scraper
  split <;> simp

/-- Success-path frame for the poster run method. -/
lemma run_post_ok_frame (store : Store) (st : AppState) (now : Int)
    (jitter : Int) (attempt : Option Nat) :
    (run_poster store st now true jitter attempt).cfg = st.cfg ∧
    (run_poster store st now true jitter attempt).raised = st.raised ∧
    (run_poster store st now true jitter attempt).nextRemover = st.nextRemover ∧
    (run_poster store st now true jitter attempt).nextYoutube = st.nextYoutube := by
  unfold run_poster
  split <;> simp

/-- Whatever branch `auth.login` takes, the config it leaves behind is
the reloaded one. -/
lemma auth_login_cfg (store : Store) (cfg : Config) (attempt : Option Nat) :
    (auth_login store cfg attempt).1 = loadAllConfig store cfg := by
  simp only [auth_login]
  repeat' split
  all_goals rfl

/-- When reloading the store would not change the in-process config,
`handle_error` leaves the config unchanged. -/
lemma handle_error_cfg (store : Store) (st : AppState) (attempt : Option Nat)
    (h : loadAllConfig store st.cfg = st.cfg) :
    (handle_error store st attempt).cfg = st.cfg := by
  simp only [handle_error, init_instagram]
  rcases ha : auth_login store st.cfg attempt with ⟨cfg', res, r⟩
  have hc' : cfg' = st.cfg := by
    have h2 := auth_login_cfg store st.cfg attempt
    rw [ha] at h2
    exact h2.trans h
  repeat' split
  all_goals simp_all

/-- When the reloading login does not raise (credentials attributes are
present after the reload), `handle_error` leaves the exception flag
unchanged. -/
lemma handle_error_raised (store : Store) (st : AppState) (attempt : Option Nat)
    (hna : (auth_login store st.cfg attempt).2.2 = false) :
    (handle_error store st attempt).raised = st.raised := by
  simp only [handle_error, init_instagram]
  rcases ha : auth_login store st.cfg attempt with ⟨cfg', res, r⟩
  have hr' : r = false := by rw [ha] at hna; exact hna
  subst hr'
  repeat' split
  all_goals simp_all

/-- Any-outcome frame for the scraper run method: the other tasks' due
times are never touched. -/
lemma run_scr_frame (store : Store) (st : AppState) (now : Int)
    (bodyOk : Bool) (attempt : Option Nat) :
    (run_reels_scraper store st now bodyOk attempt).nextPoster = st.nextPoster ∧
    (run_reels_scraper store st now bodyOk attempt).nextRemover = st.nextRemover ∧
    (run_reels_scraper store st now bodyOk attempt).nextYoutube = st.nextYoutube := by
  unfold run_reels_scraper
  split
  · exact ⟨rfl, rfl, rfl⟩
  · split
    · exact ⟨rfl, rfl, rfl⟩
    · have h := handle_error_frame store st attempt
      exact ⟨h.2.1, h.2.2.1, h.2.2.2.1⟩

/-- Any-outcome frame for the poster run method. -/
lemma run_post_frame (store : Store) (st : AppState) (now : Int)
    (bodyOk : Bool) (jitter : Int) (attempt : Option Nat) :
    (run_poster store st now bodyOk jitter attempt).nextScraper = st.nextScraper ∧
    (run_poster store st now bodyOk jitter attempt).nextRemover = st.nextRemover ∧
    (run_poster store st now bodyOk jitter attempt).nextYoutube = st.nextYoutube := by
  unfold run_poster
  split
  · exact ⟨rfl, rfl, rfl⟩
  · split
    · exact ⟨rfl, rfl, rfl⟩
    · have h := handle_error_frame store st attempt
      exact ⟨h.1, h.2.2.1, h.2.2.2.1⟩

/-- Under a stable store and non-raising login, the scraper run method
preserves the config and the exception flag, whatever its outcome. -/
lemma run_scr_cfg_raised (store : Store) (st : AppState) (now : Int)
    (bodyOk : Bool) (attempt : Option Nat)
    (h : loadAllConfig store st.cfg = st.cfg)
    (hna : (auth_login store st.cfg attempt).2.2 = false) :
    (run_reels_scraper store st now bodyOk attempt).cfg = st.cfg ∧
    (run_reels_scraper store st now bodyOk attempt).raised = st.raised := by
  unfold run_reels_scraper
  split
  · exact ⟨rfl, rfl⟩
  · split
    · exact ⟨rfl, rfl⟩
    · exact ⟨handle_error_cfg store st attempt h,
             handle_error_raised store st attempt hna⟩

/-- Under a stable store and non-raising login, the poster run method
preserves the config and the exception flag, whatever its outcome. -/
lemma run_post_cfg_raised (store : Store) (st : AppState) (now : Int)
    (bodyOk : Bool) (jitter : Int) (attempt : Option Nat)
    (h : loadAllConfig store st.cfg = st.cfg)
    (hna : (auth_login store st.cfg attempt).2.2 = false) :
    (run_poster store st now bodyOk jitter attempt).cfg = st.cfg ∧
    (run_poster store st now bodyOk jitter attempt).raised = st.raised := by
  unfold run_poster
  split
  · exact ⟨rfl, rfl⟩
  · split
    · exact ⟨rfl, rfl⟩
    · exact ⟨handle_error_cfg store st attempt h,
             handle_error_raised store st attempt hna⟩

/-- The remover run method only touches its own due time. -/
lemma run_rem_frame (st : AppState) (now : Int) (bodyOk : Bool) :
    (run_remover st now bodyOk).cfg = st.cfg ∧
    (run_remover st now bodyOk).raised = st.raised ∧
    (run_remover st now bodyOk).nextScraper = st.nextScraper ∧
    (run_remover st now bodyOk).nextPoster = st.nextPoster ∧
    (run_remover st now bodyOk).nextYoutube = st.nextYoutube := by
  unfold run_remover
  split <;> simp

/-- With a succeeding scraper body, the scraper block preserves the
config, the exception flag, the other tasks' due times, and membership of
every other task in the invoked list. -/
lemma stepScrape_ok (store : Store) (now : Int) (env : TickEnv)
    (p : AppState × List TaskName)
    (hok : env.scrapeOk = true) (hr : p.1.raised = false) :
    (stepScrape store now env p).1.cfg = p.1.cfg ∧
    (stepScrape store now env p).1.raised = false ∧
    (stepScrape store now env p).1.nextPoster = p.1.nextPoster ∧
    (stepScrape store now env p).1.nextRemover = p.1.nextRemover ∧
    (stepScrape store now env p).1.nextYoutube = p.1.nextYoutube ∧
    (∀ x : TaskName, x ≠ TaskName.scrape →
      (x ∈ (stepScrape store now env p).2 ↔ x ∈ p.2)) := by
  have h := run_scr_ok_frame store p.1 now env.loginS
  unfold stepScrape
  rw [hok, hr]
  simp only [Bool.false_eq_true, if_false]
  split
  · exact ⟨h.1, h.2.1.trans hr, h.2.2.1, h.2.2.2.1, h.2.2.2.2,
      fun x hx => by simp [List.mem_append, hx]⟩
  · exact ⟨rfl, hr, rfl, rfl, rfl, fun x hx => Iff.rfl⟩

/-- With a succeeding poster body, the poster block preserves the config,
the exception flag, the later tasks' due times, and membership of every
other task in the invoked list. -/
lemma stepPost_ok (store : Store) (now : Int) (env : TickEnv)
    (p : AppState × List TaskName)
    (hok : env.postOk = true) (hr : p.1.raised = false) :
    (stepPost store now env p).1.cfg = p.1.cfg ∧
    (stepPost store now env p).1.raised = false ∧
    (stepPost store now env p).1.nextRemover = p.1.nextRemover ∧
    (stepPost store now env p).1.nextYoutube = p.1.nextYoutube ∧
    (∀ x : TaskName, x ≠ TaskName.post →
      (x ∈ (stepPost store now env p).2 ↔ x ∈ p.2)) := by
  have h := run_post_ok_frame store p.1 now env.jitter env.loginP
  unfold stepPost
  rw [hok, hr]
  simp only [Bool.false_eq_true, if_false]
  split
  · exact ⟨h.1, h.2.1.trans hr, h.2.2.1, h.2.2.2,
      fun x hx => by simp [List.mem_append, hx]⟩
  · exact ⟨rfl, hr, rfl, rfl, fun x hx => Iff.rfl⟩

/-- The remover block invokes Cleanup exactly when the in-process config
enables it and it is due. -/
lemma stepCleanup_mem (now : Int) (env : TickEnv)
    (p : AppState × List TaskName) (hr : p.1.raised = false) :
    (TaskName.cleanup ∈ (stepCleanup now env p).2 ↔
      (TaskName.cleanup ∈ p.2 ∨
        (is_enabled p.1.cfg "IS_REMOVE_FILES" = true ∧ p.1.nextRemover ≤ now))) := by
  unfold stepCleanup
  rw [hr]
  simp only [Bool.false_eq_true, if_false]
  split
  · simp_all [Bool.and_eq_true, decide_eq_true_eq]
  · simp_all [Bool.and_eq_true, decide_eq_true_eq]

/-- The YouTube block never adds or removes any other task from the
invoked list. -/
lemma stepSecondary_mem (now : Int) (env : TickEnv)
    (p : AppState × List TaskName) (x : TaskName)
    (hx : x ≠ TaskName.secondary) :
    (x ∈ (stepSecondary now env p).2 ↔ x ∈ p.2) := by
  unfold stepSecondary
  split
  · exact Iff.rfl
  · split
    · simp [List.mem_append, hx]
    · exact Iff.rfl

/-- Claim C6 as amended: the enabled flag is re-read from the in-process
config object on every tick (never cached per task), so on any tick whose
session task bodies succeed, Cleanup is invoked exactly when the
in-process config currently enables it and it is due — but the external
store is only loaded into the in-process config at startup and whenever
`auth.login` runs (a session (re)acquisition), so a change to the stored
configuration does not take effect on the next tick by itself. -/
theorem claim6_amended_enabled_from_memory (store : Store) (st : AppState)
    (now : Int) (env : TickEnv)
    (hraised : st.raised = false)
    (hscr : env.scrapeOk = true) (hpost : env.postOk = true) :
    TaskName.cleanup ∈ (tick store st now env).2 ↔
      (is_enabled st.cfg "IS_REMOVE_FILES" = true ∧ st.nextRemover ≤ now) := by
  obtain ⟨h1cfg, h1raised, h1post, h1rem, h1yt, h1mem⟩ :=
    stepScrape_ok store now env (st, []) hscr hraised
  obtain ⟨h2cfg, h2raised, h2rem, h2yt, h2mem⟩ :=
    stepPost_ok store now env (stepScrape store now env (st, [])) hpost h1raised
  have h3 := stepCleanup_mem now env
    (stepPost store now env (stepScrape store now env (st, []))) h2raised
  unfold tick
  rw [stepSecondary_mem now env _ TaskName.cleanup (by decide), h3,
      h2mem TaskName.cleanup (by decide), h1mem TaskName.cleanup (by decide),
      h2cfg, h1cfg, h2rem, h1rem]
  simp

/-- Closed instance of the amended C6: with the remover enabled in the
in-process config (loaded from the old store) and overdue, the tick
invokes Cleanup even though the current external store disables it. -/
theorem claim6_amended_enabled_from_memory_witness :
    TaskName.cleanup ∈ (tick c6storeNew (initApp c6storeOld false 0)
      1000 allOkEnv).2 :=
  (claim6_amended_enabled_from_memory c6storeNew (initApp c6storeOld false 0)
      1000 allOkEnv (by decide) rfl rfl).mpr ⟨by decide, by decide⟩

/-- Each dispatch block appends at most its own task to the invoked
list. -/
lemma stepScrape_exec_cases (store : Store) (now : Int) (env : TickEnv)
    (p : AppState × List TaskName) :
    (stepScrape store now env p).2 = p.2 ∨
    (stepScrape store now env p).2 = p.2 ++ [TaskName.scrape] := by
  unfold stepScrape
  split
  · exact Or.inl rfl
  · split
    · exact Or.inr rfl
    · exact Or.inl rfl

/-- Each dispatch block appends at most its own task to the invoked
list. -/
lemma stepPost_exec_cases (store : Store) (now : Int) (env : TickEnv)
    (p : AppState × List TaskName) :
    (stepPost store now env p).2 = p.2 ∨
    (stepPost store now env p).2 = p.2 ++ [TaskName.post] := by
  unfold stepPost
  split
  · exact Or.inl rfl
  · split
    · exact Or.inr rfl
    · exact Or.inl rfl

/-- Each dispatch block appends at most its own task to the invoked
list. -/
lemma stepCleanup_exec_cases (now : Int) (env : TickEnv)
    (p : AppState × List TaskName) :
    (stepCleanup now env p).2 = p.2 ∨
    (stepCleanup now env p).2 = p.2 ++ [TaskName.cleanup] := by
  unfold stepCleanup
  split
  · exact Or.inl rfl
  · split
    · exact Or.inr rfl
    · exact Or.inl rfl

/-- Each dispatch block appends at most its own task to the invoked
list. -/
lemma stepSecondary_exec_cases (now : Int) (env : TickEnv)
    (p : AppState × List TaskName) :
    (stepSecondary now env p).2 = p.2 ∨
    (stepSecondary now env p).2 = p.2 ++ [TaskName.secondary] := by
  unfold stepSecondary
  split
  · exact Or.inl rfl
  · split
    · exact Or.inr rfl
    · exact Or.inl rfl

/-- Full characterization of the scraper block under a stable store and
non-raising login: fields relevant to later blocks are preserved and the
invoked list grows exactly by the block's own dispatch condition. -/
lemma stepScrape_char (store : Store) (now : Int) (env : TickEnv)
    (p : AppState × List TaskName)
    (hr : p.1.raised = false)
    (hstable : loadAllConfig store p.1.cfg = p.1.cfg)
    (hna : (auth_login store p.1.cfg env.loginS).2.2 = false) :
    (stepScrape store now env p).1.cfg = p.1.cfg ∧
    (stepScrape store now env p).1.raised = false ∧
    (stepScrape store now env p).1.nextPoster = p.1.nextPoster ∧
    (stepScrape store now env p).1.nextRemover = p.1.nextRemover ∧
    (stepScrape store now env p).1.nextYoutube = p.1.nextYoutube ∧
    (stepScrape store now env p).2 = p.2 ++
      (if is_enabled p.1.cfg "IS_ENABLED_REELS_SCRAPER" && p.1.nextScraper ≤ now
       then [TaskName.scrape] else []) := by
  unfold stepScrape
  rw [hr]
  simp only [Bool.false_eq_true, if_false]
  split
  · have hcr := run_scr_cfg_raised store p.1 now env.scrapeOk env.loginS hstable hna
    have hf := run_scr_frame store p.1 now env.scrapeOk env.loginS
    rename_i hcond
    exact ⟨hcr.1, hcr.2.trans hr, hf.1, hf.2.1, hf.2.2, by simp [hcond]⟩
  · rename_i hcond
    exact ⟨rfl, hr, rfl, rfl, rfl, by simp [hcond]⟩

/-- Full characterization of the poster block under a stable store and
non-raising login. -/
lemma stepPost_char (store : Store) (now : Int) (env : TickEnv)
    (p : AppState × List TaskName)
    (hr : p.1.raised = false)
    (hstable : loadAllConfig store p.1.cfg = p.1.cfg)
    (hna : (auth_login store p.1.cfg env.loginP).2.2 = false) :
    (stepPost store now env p).1.cfg = p.1.cfg ∧
    (stepPost store now env p).1.raised = false ∧
    (stepPost store now env p).1.nextRemover = p.1.nextRemover ∧
    (stepPost store now env p).1.nextYoutube = p.1.nextYoutube ∧
    (stepPost store now env p).2 = p.2 ++
      (if is_enabled p.1.cfg "IS_ENABLED_AUTO_POSTER" && p.1.nextPoster ≤ now
       then [TaskName.post] else []) := by
  unfold stepPost
  rw [hr]
  simp only [Bool.false_eq_true, if_false]
  split
  · have hcr := run_post_cfg_raised store p.1 now env.postOk env.jitter env.loginP
      hstable hna
    have hf := run_post_frame store p.1 now env.postOk env.jitter env.loginP
    rename_i hcond
    exact ⟨hcr.1, hcr.2.trans hr, hf.2.1, hf.2.2, by simp [hcond]⟩
  · rename_i hcond
    exact ⟨rfl, hr, rfl, rfl, by simp [hcond]⟩

/-- Full characterization of the remover block. -/
lemma stepCleanup_char (now : Int) (env : TickEnv)
    (p : AppState × List TaskName) (hr : p.1.raised = false) :
    (stepCleanup now env p).1.cfg = p.1.cfg ∧
    (stepCleanup now env p).1.raised = false ∧
    (stepCleanup now env p).1.nextYoutube = p.1.nextYoutube ∧
    (stepCleanup now env p).2 = p.2 ++
      (if is_enabled p.1.cfg "IS_REMOVE_FILES" && p.1.nextRemover ≤ now
       then [TaskName.cleanup] else []) := by
  unfold stepCleanup
  rw [hr]
  simp only [Bool.false_eq_true, if_false]
  split
  · have hf := run_rem_frame p.1 now env.removeOk
    rename_i hcond
    exact ⟨hf.1, hf.2.1.trans hr, hf.2.2.2.2, by simp [hcond]⟩
  · rename_i hcond
    exact ⟨rfl, hr, rfl, by simp [hcond]⟩

/-- Full characterization of the YouTube block's invoked list. -/
lemma stepSecondary_char (now : Int) (env : TickEnv)
    (p : AppState × List TaskName) (hr : p.1.raised = false) :
    (stepSecondary now env p).2 = p.2 ++
      (if is_enabled p.1.cfg "IS_ENABLED_YOUTUBE_SCRAPING" && p.1.nextYoutube ≤ now
       then [TaskName.secondary] else []) := by
  unfold stepSecondary
  rw [hr]
  simp only [Bool.false_eq_true, if_false]
  split
  · rename_i hcond
    simp [hcond]
  · rename_i hcond
    simp [hcond]

/-- Claim C8: within a single tick, the tasks invoked are always listed
in the fixed priority order Scrape, Post, Cleanup, SecondaryAcquire (the
invoked list is a sublist of that order — no other order ever occurs);
and on a tick with no pending external config change and non-raising
logins, the invoked tasks are exactly those whose enabled flag and due
time held at the start of the tick, in that order. -/
theorem claim8_priority_order (store : Store) (st : AppState) (now : Int)
    (env : TickEnv) :
    ((tick store st now env).2).Sublist priorityOrder ∧
    (st.raised = false →
     loadAllConfig store st.cfg = st.cfg →
     (auth_login store st.cfg env.loginS).2.2 = false →
     (auth_login store st.cfg env.loginP).2.2 = false →
     (tick store st now env).2 =
       priorityOrder.filter (dueAndEnabled st now)) := by
  unfold tick
  constructor
  · rcases stepScrape_exec_cases store now env (st, []) with h1 | h1 <;>
    rcases stepPost_exec_cases store now env
      (stepScrape store now env (st, [])) with h2 | h2 <;>
    rcases stepCleanup_exec_cases now env
      (stepPost store now env (stepScrape store now env (st, []))) with h3 | h3 <;>
    rcases stepSecondary_exec_cases now env
      (stepCleanup now env (stepPost store now env
        (stepScrape store now env (st, [])))) with h4 | h4 <;>
    (rw [h4, h3, h2, h1]; simp; try decide)
  · intro h0 hstable hnaS hnaP
    obtain ⟨c1cfg, c1r, c1post, c1rem, c1yt, c1exec⟩ :=
      stepScrape_char store now env (st, []) h0 hstable hnaS
    have hst1 : loadAllConfig store (stepScrape store now env (st, [])).1.cfg =
        (stepScrape store now env (st, [])).1.cfg := by
      rw [c1cfg]; exact hstable
    have hna1 : (auth_login store (stepScrape store now env (st, [])).1.cfg
        env.loginP).2.2 = false := by
      rw [c1cfg]; exact hnaP
    obtain ⟨c2cfg, c2r, c2rem, c2yt, c2exec⟩ :=
      stepPost_char store now env (stepScrape store now env (st, [])) c1r hst1 hna1
    obtain ⟨c3cfg, c3r, c3yt, c3exec⟩ :=
      stepCleanup_char now env
        (stepPost store now env (stepScrape store now env (st, []))) c2r
    have c4exec := stepSecondary_char now env
      (stepCleanup now env (stepPost store now env
        (stepScrape store now env (st, [])))) c3r
    rw [c4exec, c3exec, c2exec, c1exec]
    simp only [c1cfg, c2cfg, c3cfg, c1post, c1rem, c2rem, c1yt, c2yt, c3yt]
    by_cases hA : (is_enabled st.cfg "IS_ENABLED_REELS_SCRAPER" &&
        decide (st.nextScraper ≤ now)) = true <;>
    by_cases hB : (is_enabled st.cfg "IS_ENABLED_AUTO_POSTER" &&
        decide (st.nextPoster ≤ now)) = true <;>
    by_cases hC : (is_enabled st.cfg "IS_REMOVE_FILES" &&
        decide (st.nextRemover ≤ now)) = true <;>
    by_cases hD : (is_enabled st.cfg "IS_ENABLED_YOUTUBE_SCRAPING" &&
        decide (st.nextYoutube ≤ now)) = true <;>
    simp [priorityOrder, dueAndEnabled, List.filter, hA, hB, hC, hD]

/-- Closed instance of C8: all four tasks due and enabled simultaneously
are invoked exactly in the order Scrape, Post, Cleanup,
SecondaryAcquire. -/
theorem claim8_priority_order_witness :
    (tick [] c8state 1000 allOkEnv).2 = priorityOrder ∧
    (tick [] c8state 1000 allOkEnv).2.Sublist priorityOrder :=
  have h := claim8_priority_order [] c8state 1000 allOkEnv
  ⟨(h.2 rfl rfl (by decide) (by decide)).trans (by decide), h.1⟩

/-- Counterexample to claim C7: in the fatal-startup case itself — a
session-dependent task enabled but no session obtainable at process
start — startup initialization reports failure, `run()` logs and
returns, and `main()` completes normally, so the process exits with code
0, not a non-zero code. -/
theorem claim7_counterexample :
    (init_instagram c7store (initApp c7store false 0) (some 1)).2 = false ∧
    mainExit c7store false 0 (some 1) [] = 0 := by decide

/-- Claim C7 as amended: the process exit code is always 0 or 1; it is 1
exactly when a Python exception propagates to `main` (a bad config value
raising in `__init__`, a raising login, or an exception escaping the
loop), and it is 0 both on graceful shutdown and in the fatal-startup
case where session initialization merely reports failure (login returns
no client) — that case terminates the process but with exit code 0. -/
theorem claim7_amended_exit_codes (store : Store) (devMode : Bool)
    (now0 : Int) (login : Option Nat) (ticks : List (Int × TickEnv)) :
    (mainExit store devMode now0 login ticks = 0 ∨
     mainExit store devMode now0 login ticks = 1) ∧
    ((initApp store devMode now0).raised = true →
      mainExit store devMode now0 login ticks = 1) ∧
    ((initApp store devMode now0).raised = false →
     (init_instagram store (initApp store devMode now0) login).1.raised = false →
     (init_instagram store (initApp store devMode now0) login).2 = false →
      mainExit store devMode now0 login ticks = 0) ∧
    ((initApp store devMode now0).raised = false →
     (init_instagram store (initApp store devMode now0) login).1.raised = false →
     (init_instagram store (initApp store devMode now0) login).2 = true →
     (runLoop store (init_instagram store (initApp store devMode now0) login).1
        ticks).raised = false →
      mainExit store devMode now0 login ticks = 0) := by
  simp only [mainExit]
  split_ifs <;> simp_all

/-- Closed instances of the amended C7: a healthy startup with an empty
tick schedule shuts down gracefully with exit code 0, while a non-numeric
interval value in the store makes startup raise and exit 1. -/
theorem claim7_amended_exit_codes_witness :
    mainExit credStore false 0 (some 1) [] = 0 ∧
    mainExit c7badStore false 0 (some 1) [] = 1 :=
  ⟨(claim7_amended_exit_codes credStore false 0 (some 1) []).2.2.2
      (by decide) (by decide) (by decide) (by decide),
   (claim7_amended_exit_codes c7badStore false 0 (some 1) []).2.1 (by decide)⟩

end ReelsPilot
